import Mathlib

/-!
Verification of the radiko_recorder_rust repository against its
natural-language specification.

The embedding translates the Rust sources shallowly:
- `HashMap<String, String>` becomes an association list with replacing
  insertion (`hmInsert` / `hmGet`);
- machine integers (`usize`) become `Nat` with explicit reduction modulo
  `USIZE_BOUND = 2 ^ 64` where Rust release-mode arithmetic wraps;
- fallible Rust code (`Result`) becomes `Except String`, and a Rust panic
  (a failed slice index, or `expect` on an `Err`) becomes `none` in an
  `Option`-wrapped result;
- the blocking HTTP transport becomes an explicit function
  `String → Response` from request URL to the simulated response, and the
  handshake additionally returns the list of URLs it actually requested,
  so that temporal claims ("the second request is never issued") are
  statable;
- `chrono` timestamps become seconds since 1970-01-01 00:00:00 as `Nat`
  (naive local time, fixed offset), and the civil-calendar conversion
  behind `%Y%m%d%H%M%S` is the standard proleptic-Gregorian
  days-to-civil algorithm.
-/

/-! ## String-keyed maps (Rust `HashMap<String, String>`) -/

/-- Model of `HashMap::insert`: any earlier binding of the key is replaced. -/
def hmInsert (m : List (String × String)) (k v : String) : List (String × String) :=
  m.filter (fun p => p.1 != k) ++ [(k, v)]

/-- Model of `HashMap::get`. -/
def hmGet (m : List (String × String)) (k : String) : Option String :=
  (m.find? (fun p => p.1 == k)).map Prod.snd

/-! ## Base64 (the `base64` crate's `general_purpose::STANDARD` engine) -/

/-- The standard base64 alphabet. -/
def b64chars : List Char :=
  "ABCDEFGHIJKLMNOPQRSTUVWXYZabcdefghijklmnopqrstuvwxyz0123456789+/".data

/-- The alphabet character for a 6-bit value. -/
def b64char (i : Nat) : Char := b64chars.getD i 'A'

/-- Standard padded base64 of a byte list, three input bytes per four
output characters, `=`-padded. -/
def b64groups : List Nat → List Char
  | [] => []
  | [b1] => [b64char (b1 / 4), b64char (b1 % 4 * 16), '=', '=']
  | [b1, b2] => [b64char (b1 / 4), b64char (b1 % 4 * 16 + b2 / 16), b64char (b2 % 16 * 4), '=']
  | b1 :: b2 :: b3 :: rest =>
      b64char (b1 / 4) :: b64char (b1 % 4 * 16 + b2 / 16) ::
        b64char (b2 % 16 * 4 + b3 / 64) :: b64char (b3 % 64) :: b64groups rest

/-- `general_purpose::STANDARD.encode`. -/
def base64Encode (bs : List Nat) : String := ⟨b64groups bs⟩

/-! ## src/auth_handler.rs -/

/-- One more than the largest `usize` value (64-bit target). -/
def USIZE_BOUND : Nat := 2 ^ 64

/-- `RadikoAuthHandler::AUTH1_URL`. -/
def AUTH1_URL : String := "https://radiko.jp/v2/api/auth1"

/-- `RadikoAuthHandler::AUTH2_URL`. -/
def AUTH2_URL : String := "https://radiko.jp/v2/api/auth2"

/-- `RadikoAuthHandler::RADIKO_AUTH_KEY`, the fixed shared secret
`b"bcd151073c03b352e1ef2fd66c32209da9ca0afa"` as its byte values. -/
def RADIKO_AUTH_KEY : List Nat :=
  "bcd151073c03b352e1ef2fd66c32209da9ca0afa".data.map Char.toNat

/-- The core of `RadikoAuthHandler::get_partial_key` once the two header
integers are parsed: the bounds guard `key_offset + key_length >
RADIKO_AUTH_KEY.len()` (whose addition wraps modulo `2 ^ 64` in release
builds), then the slice `RADIKO_AUTH_KEY[key_offset .. key_offset +
key_length]` (which panics, modelled `none`, unless `start ≤ end ≤ len`),
then base64 encoding of the slice. -/
def derive_partial_key (key_offset key_length : Nat) : Option (Except String String) :=
  let sum := (key_offset + key_length) % USIZE_BOUND
  if RADIKO_AUTH_KEY.length < sum then
    some (Except.error "Key offset and length out of bounds")
  else if key_offset ≤ sum ∧ sum ≤ RADIKO_AUTH_KEY.length then
    some (Except.ok (base64Encode ((RADIKO_AUTH_KEY.drop key_offset).take (sum - key_offset))))
  else
    none

/-- Rust `str::parse::<usize>()`: an optional leading `+`, then at least
one decimal digit, rejecting values that do not fit in 64 bits. -/
def parseUsize (s : String) : Option Nat :=
  let ds := match s.data with
    | c :: rest => if c = '+' then rest else c :: rest
    | [] => []
  if ds.isEmpty then none
  else if ds.all (fun c => decide ('0' ≤ c ∧ c ≤ '9')) then
    let n := ds.foldl (fun acc c => acc * 10 + (c.toNat - 48)) 0
    if n < USIZE_BOUND then some n else none
  else none

/-- A simulated HTTP response: status code and response headers. -/
structure Response where
  status : Nat
  headers : List (String × String)
deriving DecidableEq

/-- Header lookup on a simulated response (`HeaderMap::get`). -/
def lookupHeader (r : Response) (name : String) : Option String :=
  (r.headers.find? (fun p => p.1 == name)).map Prod.snd

/-- `StatusCode::is_success`: a 2xx status. -/
def is_success (status : Nat) : Bool := 200 ≤ status && status < 300

/-- `RadikoAuthHandler::call_auth_api` over a simulated transport: issue
the GET, fail with `failed in <url>.` unless the status is 2xx. -/
def call_auth_api (transport : String → Response) (api_url : String) :
    Except String Response :=
  let res := transport api_url
  if is_success res.status then Except.ok res
  else Except.error ("failed in " ++ api_url ++ ".")

/-- `RadikoAuthHandler::get_auth_token`: the `X-Radiko-AUTHTOKEN`
response header, or a protocol error when it is missing. -/
def get_auth_token (response : Response) : Except String String :=
  match lookupHeader response "X-Radiko-AUTHTOKEN" with
  | some val => Except.ok val
  | none => Except.error "Missing X-Radiko-AUTHTOKEN header"

/-- `RadikoAuthHandler::get_partial_key` on a simulated response: read and
parse `X-Radiko-KeyLength`, then `X-Radiko-KeyOffset`, then run the core
derivation (`none` models a panic inside the derivation). -/
def get_partial_key (response : Response) : Option (Except String String) :=
  match lookupHeader response "X-Radiko-KeyLength" with
  | none => some (Except.error "Missing X-Radiko-KeyLength header")
  | some val =>
    match parseUsize val with
    | none => some (Except.error "invalid digit found in string")
    | some key_length =>
      match lookupHeader response "X-Radiko-KeyOffset" with
      | none => some (Except.error "Missing X-Radiko-KeyOffset header")
      | some val2 =>
        match parseUsize val2 with
        | none => some (Except.error "invalid digit found in string")
        | some key_offset => derive_partial_key key_offset key_length

/-- The header map `RadikoAuthHandler::new` seeds before the handshake,
in insertion order (all keys distinct). -/
def initial_headers (area_id : String) : List (String × String) :=
  [("User-Agent", "python3.7"),
   ("Accept", "*/*"),
   ("X-Radiko-App", "pc_html5"),
   ("X-Radiko-App-Version", "0.0.1"),
   ("X-Radiko-User", "dummy_user"),
   ("X-Radiko-Device", "pc"),
   ("X-Radiko-AuthToken", ""),
   ("X-Radiko-Partialkey", ""),
   ("X-Radiko-AreaId", area_id)]

/-- `RadikoAuthHandler` owns the evolving header map. -/
structure RadikoAuthHandler where
  headers : List (String × String)
deriving DecidableEq

/-- `RadikoAuthHandler::get_authenticated_headers` (a clone of the map). -/
def RadikoAuthHandler.get_authenticated_headers (h : RadikoAuthHandler) :
    List (String × String) := h.headers

/-- `RadikoAuthHandler::auth`: call auth1, extract the token and the
partial key, write both into the header map, then call auth2.  The first
component is the outcome (`none` models a panic inside the partial-key
derivation), the second the list of URLs actually requested, in order. -/
def RadikoAuthHandler.auth (transport : String → Response)
    (headers : List (String × String)) :
    Option (Except String (List (String × String))) × List String :=
  match call_auth_api transport AUTH1_URL with
  | Except.error e => (some (Except.error e), [AUTH1_URL])
  | Except.ok res =>
    match get_auth_token res with
    | Except.error e => (some (Except.error e), [AUTH1_URL])
    | Except.ok auth_token =>
      match get_partial_key res with
      | none => (none, [AUTH1_URL])
      | some (Except.error e) => (some (Except.error e), [AUTH1_URL])
      | some (Except.ok partial_key) =>
        let headers2 :=
          hmInsert (hmInsert headers "X-Radiko-AuthToken" auth_token)
            "X-Radiko-Partialkey" partial_key
        match call_auth_api transport AUTH2_URL with
        | Except.error e => (some (Except.error e), [AUTH1_URL, AUTH2_URL])
        | Except.ok _ => (some (Except.ok headers2), [AUTH1_URL, AUTH2_URL])

/-- `RadikoAuthHandler::new`: seed the headers, run the handshake, and
return the handler on success, again paired with the issued-URL trace. -/
def RadikoAuthHandler.new (transport : String → Response) (area_id : String) :
    Option (Except String RadikoAuthHandler) × List String :=
  match RadikoAuthHandler.auth transport (initial_headers area_id) with
  | (none, trace) => (none, trace)
  | (some (Except.error e), trace) => (some (Except.error e), trace)
  | (some (Except.ok h), trace) => (some (Except.ok ⟨h⟩), trace)

/-! ## src/main.rs -/

/-- The numeric part of the area-id regular expression
`^JP([1-9]|[1-3][0-9]|4[0-7])$` and its two fixed prefix letters,
denoted over the character list of the candidate string. -/
def areaIdChars : List Char → Bool
  | [c0, c1, c2] =>
      c0 == 'J' && c1 == 'P' && decide ('1' ≤ c2 ∧ c2 ≤ '9')
  | [c0, c1, c2, c3] =>
      c0 == 'J' && c1 == 'P' &&
        ((decide ('1' ≤ c2 ∧ c2 ≤ '3') && decide ('0' ≤ c3 ∧ c3 ≤ '9')) ||
          (c2 == '4' && decide ('0' ≤ c3 ∧ c3 ≤ '7')))
  | _ => false

/-- `is_valid_area_id`: whether the whole string matches
`^JP([1-9]|[1-3][0-9]|4[0-7])$`. -/
def is_valid_area_id (area_id : String) : Bool := areaIdChars area_id.data

/-- `is_valid_station_id`: whether the whole string matches
`^[A-Z0-9]+$`. -/
def is_valid_station_id (station_id : String) : Bool :=
  !station_id.data.isEmpty &&
    station_id.data.all (fun c => decide (('A' ≤ c ∧ c ≤ 'Z') ∨ ('0' ≤ c ∧ c ≤ '9')))

/-- The validation prefix of `record_radio`, exactly the code before its
first side effect: the three checks run in source order, and
`Except.ok ()` marks that control reaches the directory creation — the
first filesystem access, which precedes every network call and the
`RadikoPlayer` construction. -/
def record_radio_precheck (area_id station_id : String)
    (duration_minutes : Int) : Except String Unit :=
  if !is_valid_area_id area_id then
    Except.error ("Invalid area ID: " ++ area_id)
  else if !is_valid_station_id station_id then
    Except.error ("Invalid station ID: " ++ station_id)
  else if duration_minutes ≤ 0 then
    Except.error "Duration minutes must be positive"
  else
    Except.ok ()

/-! ## src/recorder.rs -/

/-- Days since 1970-01-01 to the proleptic-Gregorian civil date
`(year, month, day)`: the observable mapping behind chrono's calendar
arithmetic (standard era/day-of-era algorithm, nonnegative days). -/
def civilFromDays (days : Nat) : Nat × Nat × Nat :=
  let z := days + 719468
  let era := z / 146097
  let doe := z % 146097
  let yoe := (doe - doe / 1460 + doe / 36524 - doe / 146096) / 365
  let y := yoe + era * 400
  let doy := doe - (365 * yoe + yoe / 4 - yoe / 100)
  let mp := (5 * doy + 2) / 153
  let d := doy - (153 * mp + 2) / 5 + 1
  let m := if mp < 10 then mp + 3 else mp - 9
  (if m ≤ 2 then y + 1 else y, m, d)

/-- The year a timestamp (seconds since the epoch) falls in. -/
def yearOf (t : Nat) : Nat := (civilFromDays (t / 86400)).1

/-- Decimal digits of `n`, most significant first; the first argument is
structural fuel (any value above `n` is enough). -/
def decDigits : Nat → Nat → List Char
  | _, 0 => []
  | n, fuel + 1 =>
      if n < 10 then [Char.ofNat (48 + n)]
      else decDigits (n / 10) fuel ++ [Char.ofNat (48 + n % 10)]

/-- Decimal rendering of `n` left-padded with zeroes to at least `width`
characters, as chrono's `%Y`/`%m`/`%d`/`%H`/`%M`/`%S` specifiers do. -/
def padNat (width n : Nat) : String :=
  ⟨List.replicate (width - (decDigits n (n + 1)).length) '0' ++ decDigits n (n + 1)⟩

/-- `RadikoPlayer::format_datetime`: the `%Y%m%d%H%M%S` rendering of a
timestamp. -/
def format_datetime (t : Nat) : String :=
  let ymd := civilFromDays (t / 86400)
  padNat 4 ymd.1 ++ padNat 2 ymd.2.1 ++ padNat 2 ymd.2.2 ++
    padNat 2 (t % 86400 / 3600) ++ padNat 2 (t % 3600 / 60) ++ padNat 2 (t % 60)

/-- `RadikoPlayer`: the area id and the authenticated headers. -/
structure RadikoPlayer where
  area_id : String
  headers : List (String × String)
deriving DecidableEq

/-- `RadikoPlayer::make_headers`: run `RadikoAuthHandler::new` and add the
`Connection` header; `expect` turns a handshake failure into a panic, so
the result is an `Option` with no error alternative. -/
def make_headers (transport : String → Response) (area_id : String) :
    Option (List (String × String)) :=
  match (RadikoAuthHandler.new transport area_id).1 with
  | some (Except.ok handler) =>
      some (hmInsert handler.get_authenticated_headers "Connection" "keep-alive")
  | some (Except.error _) => none
  | none => none

/-- `RadikoPlayer::new`: infallible signature; a handshake failure is a
panic (`none`), never an error value returned to the caller. -/
def RadikoPlayer.new (transport : String → Response) (area_id : String) :
    Option RadikoPlayer :=
  (make_headers transport area_id).map (fun h => { area_id := area_id, headers := h })

/-- `RadikoPlayer::record` up to the hand-off to the external capture
sink: format the start time, add the duration in minutes, format the end
time, build the playlist URL, and pair it with the `ffmpeg` header line
built from the `X-Radiko-AuthToken` header. -/
def RadikoPlayer.record (p : RadikoPlayer) (station_id : String)
    (start_time : Nat) (duration_minutes : Nat) : Except String (String × String) :=
  let ft := format_datetime start_time
  let end_time := start_time + duration_minutes * 60
  let toStr := format_datetime end_time
  let stream_url :=
    "https://radiko.jp/v2/api/ts/playlist.m3u8?station_id=" ++ station_id ++
      "&l=15&ft=" ++ ft ++ "&to=" ++ toStr
  match hmGet p.headers "X-Radiko-AuthToken" with
  | none => Except.error "Missing X-Radiko-AuthToken"
  | some auth_token => Except.ok (stream_url, "X-RADIKO-AUTHTOKEN: " ++ auth_token)

/-! ## Enumerations and test fixtures -/

/-- The 47 area ids the specification says the validator accepts. -/
def VALID_AREA_IDS : List String :=
  ["JP1", "JP2", "JP3", "JP4", "JP5", "JP6", "JP7", "JP8", "JP9", "JP10",
   "JP11", "JP12", "JP13", "JP14", "JP15", "JP16", "JP17", "JP18", "JP19", "JP20",
   "JP21", "JP22", "JP23", "JP24", "JP25", "JP26", "JP27", "JP28", "JP29", "JP30",
   "JP31", "JP32", "JP33", "JP34", "JP35", "JP36", "JP37", "JP38", "JP39", "JP40",
   "JP41", "JP42", "JP43", "JP44", "JP45", "JP46", "JP47"]

/-- A transport whose step-1 response is 2xx but lacks every header. -/
def missingTokenTransport : String → Response :=
  fun _ => { status := 200, headers := [] }

/-- A transport that answers step 1 with a token and key coordinates and
step 2 with a bare 2xx. -/
def okTransport : String → Response := fun url =>
  if url = AUTH1_URL then
    { status := 200,
      headers := [("X-Radiko-AUTHTOKEN", "test_token"),
                  ("X-Radiko-KeyLength", "8"),
                  ("X-Radiko-KeyOffset", "0")] }
  else { status := 200, headers := [] }

/-- A transport that fails every request. -/
def failTransport : String → Response :=
  fun _ => { status := 403, headers := [] }

deriving instance DecidableEq for Except

/-! ## Helper lemmas -/

theorem find?_filter_self (m : List (String × String)) (k : String) :
    (m.filter (fun p => p.1 != k)).find? (fun p => p.1 == k) = none := by
  induction m with
  | nil => rfl
  | cons p t ih =>
      by_cases h : p.1 = k
      · simpa [List.filter_cons, h] using ih
      · have hb : (p.1 == k) = false := beq_eq_false_iff_ne.mpr h
        simpa [List.filter_cons, bne_iff_ne, h, List.find?_cons, hb] using ih

theorem find?_filter_ne (m : List (String × String)) (k k2 : String)
    (hne : k2 ≠ k) :
    (m.filter (fun p => p.1 != k)).find? (fun p => p.1 == k2) =
      m.find? (fun p => p.1 == k2) := by
  induction m with
  | nil => rfl
  | cons p t ih =>
      by_cases h : p.1 = k
      · simpa [List.filter_cons, h, List.find?_cons,
          beq_eq_false_iff_ne.mpr (Ne.symm hne)] using ih
      · by_cases h2 : p.1 = k2
        · simp [List.filter_cons, h2, bne_iff_ne, hne, List.find?_cons]
        · have hb : (p.1 == k2) = false := beq_eq_false_iff_ne.mpr h2
          simpa [List.filter_cons, bne_iff_ne, h, List.find?_cons, hb] using ih

theorem hmGet_hmInsert_self (m : List (String × String)) (k v : String) :
    hmGet (hmInsert m k v) k = some v := by
  unfold hmGet hmInsert
  rw [List.find?_append, find?_filter_self]
  simp [List.find?_cons]

theorem hmGet_hmInsert_ne (m : List (String × String)) (k k2 v : String)
    (hne : k2 ≠ k) : hmGet (hmInsert m k v) k2 = hmGet m k2 := by
  unfold hmGet hmInsert
  rw [List.find?_append, find?_filter_ne m k k2 hne]
  have hnone : List.find? (fun p => p.1 == k2) [(k, v)] = none := by
    simp [List.find?_cons, beq_eq_false_iff_ne.mpr (Ne.symm hne)]
  rw [hnone]
  cases m.find? (fun p => p.1 == k2) <;> rfl

theorem b64groups_length : ∀ bs : List Nat, (b64groups bs).length = (bs.length + 2) / 3 * 4
  | [] => by simp [b64groups]
  | [_] => by simp [b64groups]
  | [_, _] => by simp [b64groups]
  | _ :: _ :: _ :: rest => by
      have ih := b64groups_length rest
      simp [b64groups, ih]
      omega

theorem decDigits_length_le (fuel : Nat) :
    ∀ n k, n < fuel → n < 10 ^ k → 1 ≤ k → (decDigits n fuel).length ≤ k := by
  induction fuel with
  | zero => intro n k h _ _; omega
  | succ fuel ih =>
      intro n k hfuel hk hk1
      by_cases h10 : n < 10
      · simpa [decDigits, h10] using hk1
      · have h2 : 2 ≤ k := by
          by_contra hc
          push_neg at hc
          have hk1' : k = 1 := by omega
          subst hk1'
          simp at hk
          omega
        have hpow : 10 ^ k = 10 * 10 ^ (k - 1) := by
          conv_lhs => rw [show k = (k - 1) + 1 by omega]
          rw [pow_succ]
          ring
        have hdiv : n / 10 < 10 ^ (k - 1) := by omega
        have hfuel2 : n / 10 < fuel := by omega
        have hrec := ih (n / 10) (k - 1) hfuel2 hdiv (by omega)
        simp [decDigits, h10, List.length_append]
        omega

theorem padNat_length (width n : Nat) (hw : 1 ≤ width) (hn : n < 10 ^ width) :
    (padNat width n).length = width := by
  have h := decDigits_length_le (n + 1) n width (Nat.lt_succ_self n) hn hw
  simp [padNat, String.length, List.length_append, List.length_replicate]
  omega

theorem civil_month_lt (days : Nat) : (civilFromDays days).2.1 < 100 := by
  unfold civilFromDays
  dsimp only
  split <;> omega

theorem civil_day_lt (days : Nat) : (civilFromDays days).2.2 < 100 := by
  unfold civilFromDays
  dsimp only
  omega

theorem format_datetime_length (t : Nat) (hy : yearOf t ≤ 9999) :
    (format_datetime t).length = 14 := by
  have h100 : (100 : Nat) = 10 ^ 2 := by norm_num
  have h1 : (padNat 4 (civilFromDays (t / 86400)).1).length = 4 := by
    refine padNat_length 4 _ (by omega) ?_
    have : (10 : Nat) ^ 4 = 10000 := by norm_num
    unfold yearOf at hy
    omega
  have h2 := padNat_length 2 (civilFromDays (t / 86400)).2.1 (by omega)
    (h100 ▸ civil_month_lt (t / 86400))
  have h3 := padNat_length 2 (civilFromDays (t / 86400)).2.2 (by omega)
    (h100 ▸ civil_day_lt (t / 86400))
  have h4 := padNat_length 2 (t % 86400 / 3600) (by omega) (h100 ▸ by omega)
  have h5 := padNat_length 2 (t % 3600 / 60) (by omega) (h100 ▸ by omega)
  have h6 := padNat_length 2 (t % 60) (by omega) (h100 ▸ by omega)
  unfold format_datetime
  dsimp only
  rw [String.length_append, String.length_append, String.length_append,
    String.length_append, String.length_append, h1, h2, h3, h4, h5, h6]

theorem derive_partial_key_eq (key_offset key_length : Nat)
    (h : key_offset + key_length ≤ RADIKO_AUTH_KEY.length) :
    derive_partial_key key_offset key_length =
      some (Except.ok (base64Encode ((RADIKO_AUTH_KEY.drop key_offset).take key_length))) := by
  have hlen : RADIKO_AUTH_KEY.length = 40 := by decide
  have hbound : key_offset + key_length < USIZE_BOUND := by
    have hu : USIZE_BOUND = 18446744073709551616 := by norm_num [USIZE_BOUND]
    omega
  have hmod : (key_offset + key_length) % USIZE_BOUND = key_offset + key_length :=
    Nat.mod_eq_of_lt hbound
  unfold derive_partial_key
  rw [hmod, if_neg (by omega), if_pos (by omega : key_offset ≤ key_offset + key_length ∧
    key_offset + key_length ≤ RADIKO_AUTH_KEY.length)]
  rw [Nat.add_sub_cancel_left]

/-! ## Claim theorems -/

/-- C1: for every pair `(offset, length)` of non-negative integers with
`offset + length` at most the length of the fixed secret, the core of
`get_partial_key` deterministically returns, without error or panic,
exactly the standard padded base64 encoding of
`RADIKO_AUTH_KEY[offset .. offset + length]`, and the returned string has
length `ceil(length / 3) * 4`, written `(length + 2) / 3 * 4`. -/
theorem derive_partial_key_in_bounds (key_offset key_length : Nat)
    (h : key_offset + key_length ≤ RADIKO_AUTH_KEY.length) :
    derive_partial_key key_offset key_length =
      some (Except.ok (base64Encode ((RADIKO_AUTH_KEY.drop key_offset).take key_length))) ∧
    (base64Encode ((RADIKO_AUTH_KEY.drop key_offset).take key_length)).length =
      (key_length + 2) / 3 * 4 := by
  have hlen : RADIKO_AUTH_KEY.length = 40 := by decide
  constructor
  · exact derive_partial_key_eq key_offset key_length h
  · have htake : ((RADIKO_AUTH_KEY.drop key_offset).take key_length).length = key_length := by
      rw [List.length_take, List.length_drop]
      omega
    show (b64groups ((RADIKO_AUTH_KEY.drop key_offset).take key_length)).length = _
    rw [b64groups_length, htake]

theorem derive_partial_key_in_bounds_w :
    derive_partial_key 3 7 =
      some (Except.ok (base64Encode ((RADIKO_AUTH_KEY.drop 3).take 7))) ∧
    (base64Encode ((RADIKO_AUTH_KEY.drop 3).take 7)).length = (7 + 2) / 3 * 4 :=
  derive_partial_key_in_bounds 3 7 (by decide)

/-- C2 counterexample: the fixed shared secret is not a 41-byte sequence
(it has 40 bytes), so the claim as stated is false. -/
theorem radiko_auth_key_not_41_bytes : RADIKO_AUTH_KEY.length ≠ 41 := by decide

/-- C2 (amended): the fixed shared secret is a 40-byte sequence, and for
the server reply `offset = 0, length = 8` the derived partial key equals
the base64 encoding of the first 8 secret bytes — the hard-codable
constant `"YmNkMTUxMDc="`. -/
theorem partial_key_of_first_eight_bytes :
    RADIKO_AUTH_KEY.length = 40 ∧
    derive_partial_key 0 8 = some (Except.ok "YmNkMTUxMDc=") ∧
    base64Encode (RADIKO_AUTH_KEY.take 8) = "YmNkMTUxMDc=" :=
  ⟨by decide, by decide, by decide⟩

/-- C3: at `key_offset = 2 ^ 64 - 1, key_length = 2` — a pair whose true
sum exceeds the secret's length — the release-mode sum wraps to `1`, the
bounds guard passes, and the slice panics (modelled `none`): the code
does not return the bounds error the claim requires for every such pair. -/
theorem derive_partial_key_overflow_no_bounds_error :
    derive_partial_key (2 ^ 64 - 1) 2 = none ∧
    2 ^ 64 - 1 + 2 > RADIKO_AUTH_KEY.length := ⟨by decide, by decide⟩

/-- C9: `derive_partial_key` is not total over machine-word inputs: at
`key_offset = 2 ^ 64 - 2, key_length = 3` the wrapped guard sum is `1`,
the guard passes, and the slice `secret[2 ^ 64 - 2 .. 1]` panics
(modelled `none`), so the guard does not protect the slice for inputs
whose sum exceeds the machine-word maximum. -/
theorem derive_partial_key_not_total :
    derive_partial_key (2 ^ 64 - 2) 3 = none ∧
    (2 ^ 64 - 2) + 3 ≥ USIZE_BOUND := ⟨by decide, by decide⟩

/-- C4: if the step-1 response is 2xx but lacks the `X-Radiko-AUTHTOKEN`
header, `RadikoAuthHandler::new` fails with the protocol error for the
missing header and the step-2 request to the auth2 endpoint is never
issued (the trace of requested URLs does not contain `AUTH2_URL`). -/
theorem new_missing_token_fails_before_auth2 (transport : String → Response)
    (area_id : String)
    (hs : is_success (transport AUTH1_URL).status = true)
    (hm : lookupHeader (transport AUTH1_URL) "X-Radiko-AUTHTOKEN" = none) :
    (RadikoAuthHandler.new transport area_id).1 =
      some (Except.error "Missing X-Radiko-AUTHTOKEN header") ∧
    AUTH2_URL ∉ (RadikoAuthHandler.new transport area_id).2 := by
  have hnew : RadikoAuthHandler.new transport area_id =
      (some (Except.error "Missing X-Radiko-AUTHTOKEN header"), [AUTH1_URL]) := by
    simp only [RadikoAuthHandler.new, RadikoAuthHandler.auth, call_auth_api, hs,
      if_true, get_auth_token, hm]
  rw [hnew]
  exact ⟨rfl, by decide⟩

theorem new_missing_token_fails_before_auth2_w :
    (RadikoAuthHandler.new missingTokenTransport "JP13").1 =
      some (Except.error "Missing X-Radiko-AUTHTOKEN header") ∧
    AUTH2_URL ∉ (RadikoAuthHandler.new missingTokenTransport "JP13").2 :=
  new_missing_token_fails_before_auth2 missingTokenTransport "JP13" (by decide) (by decide)

/-- C5: when both handshake responses are 2xx and the step-1 response
carries a token and parseable in-bounds key coordinates, the finalized
header map of `RadikoAuthHandler` maps `X-Radiko-AuthToken` to exactly
the received token and `X-Radiko-Partialkey` to exactly the
base64-derived partial key, while the seven seeded headers keep their
initial values. -/
theorem new_success_populates_headers (transport : String → Response)
    (area_id auth_token klv kov : String) (key_length key_offset : Nat)
    (h1 : is_success (transport AUTH1_URL).status = true)
    (h2 : lookupHeader (transport AUTH1_URL) "X-Radiko-AUTHTOKEN" = some auth_token)
    (h3 : lookupHeader (transport AUTH1_URL) "X-Radiko-KeyLength" = some klv)
    (h4 : parseUsize klv = some key_length)
    (h5 : lookupHeader (transport AUTH1_URL) "X-Radiko-KeyOffset" = some kov)
    (h6 : parseUsize kov = some key_offset)
    (h7 : key_offset + key_length ≤ RADIKO_AUTH_KEY.length)
    (h8 : is_success (transport AUTH2_URL).status = true) :
    ∃ handler : RadikoAuthHandler,
      (RadikoAuthHandler.new transport area_id).1 = some (Except.ok handler) ∧
      hmGet handler.get_authenticated_headers "X-Radiko-AuthToken" = some auth_token ∧
      hmGet handler.get_authenticated_headers "X-Radiko-Partialkey" =
        some (base64Encode ((RADIKO_AUTH_KEY.drop key_offset).take key_length)) ∧
      hmGet handler.get_authenticated_headers "User-Agent" = some "python3.7" ∧
      hmGet handler.get_authenticated_headers "Accept" = some "*/*" ∧
      hmGet handler.get_authenticated_headers "X-Radiko-App" = some "pc_html5" ∧
      hmGet handler.get_authenticated_headers "X-Radiko-App-Version" = some "0.0.1" ∧
      hmGet handler.get_authenticated_headers "X-Radiko-User" = some "dummy_user" ∧
      hmGet handler.get_authenticated_headers "X-Radiko-Device" = some "pc" ∧
      hmGet handler.get_authenticated_headers "X-Radiko-AreaId" = some area_id := by
  refine ⟨⟨hmInsert (hmInsert (initial_headers area_id) "X-Radiko-AuthToken" auth_token)
      "X-Radiko-Partialkey" (base64Encode ((RADIKO_AUTH_KEY.drop key_offset).take key_length))⟩,
    ?_, ?_, ?_, ?_, ?_, ?_, ?_, ?_, ?_, ?_⟩
  · simp only [RadikoAuthHandler.new, RadikoAuthHandler.auth, call_auth_api, h1, h8,
      if_true, get_auth_token, h2, get_partial_key, h3, h4, h5, h6,
      derive_partial_key_eq key_offset key_length h7]
  · show hmGet _ "X-Radiko-AuthToken" = some auth_token
    rw [RadikoAuthHandler.get_authenticated_headers,
      hmGet_hmInsert_ne _ _ _ _ (by decide), hmGet_hmInsert_self]
  · exact hmGet_hmInsert_self _ _ _
  · rw [RadikoAuthHandler.get_authenticated_headers,
      hmGet_hmInsert_ne _ _ _ _ (by decide), hmGet_hmInsert_ne _ _ _ _ (by decide)]
    rfl
  · rw [RadikoAuthHandler.get_authenticated_headers,
      hmGet_hmInsert_ne _ _ _ _ (by decide), hmGet_hmInsert_ne _ _ _ _ (by decide)]
    rfl
  · rw [RadikoAuthHandler.get_authenticated_headers,
      hmGet_hmInsert_ne _ _ _ _ (by decide), hmGet_hmInsert_ne _ _ _ _ (by decide)]
    rfl
  · rw [RadikoAuthHandler.get_authenticated_headers,
      hmGet_hmInsert_ne _ _ _ _ (by decide), hmGet_hmInsert_ne _ _ _ _ (by decide)]
    rfl
  · rw [RadikoAuthHandler.get_authenticated_headers,
      hmGet_hmInsert_ne _ _ _ _ (by decide), hmGet_hmInsert_ne _ _ _ _ (by decide)]
    rfl
  · rw [RadikoAuthHandler.get_authenticated_headers,
      hmGet_hmInsert_ne _ _ _ _ (by decide), hmGet_hmInsert_ne _ _ _ _ (by decide)]
    rfl
  · rw [RadikoAuthHandler.get_authenticated_headers,
      hmGet_hmInsert_ne _ _ _ _ (by decide), hmGet_hmInsert_ne _ _ _ _ (by decide)]
    rfl

theorem new_success_populates_headers_w :
    ∃ handler : RadikoAuthHandler,
      (RadikoAuthHandler.new okTransport "JP13").1 = some (Except.ok handler) ∧
      hmGet handler.get_authenticated_headers "X-Radiko-AuthToken" = some "test_token" ∧
      hmGet handler.get_authenticated_headers "X-Radiko-Partialkey" =
        some (base64Encode ((RADIKO_AUTH_KEY.drop 0).take 8)) ∧
      hmGet handler.get_authenticated_headers "User-Agent" = some "python3.7" ∧
      hmGet handler.get_authenticated_headers "Accept" = some "*/*" ∧
      hmGet handler.get_authenticated_headers "X-Radiko-App" = some "pc_html5" ∧
      hmGet handler.get_authenticated_headers "X-Radiko-App-Version" = some "0.0.1" ∧
      hmGet handler.get_authenticated_headers "X-Radiko-User" = some "dummy_user" ∧
      hmGet handler.get_authenticated_headers "X-Radiko-Device" = some "pc" ∧
      hmGet handler.get_authenticated_headers "X-Radiko-AreaId" = some "JP13" :=
  new_success_populates_headers okTransport "JP13" "test_token" "8" "0" 8 0
    (by decide) (by decide) (by decide) (by decide) (by decide) (by decide)
    (by decide) (by decide)

/-- C6: the area-id validator accepts exactly the 47 strings
`"JP1"` through `"JP47"` (fixed prefix `JP`, numeric part 1 to 47 with no
leading zeros) and rejects every other string, including `"JP0"`,
`"JP48"` and `"jp13"`. -/
theorem is_valid_area_id_exact :
    (∀ s : String, is_valid_area_id s = true ↔ s ∈ VALID_AREA_IDS) ∧
    is_valid_area_id "JP0" = false ∧
    is_valid_area_id "JP48" = false ∧
    is_valid_area_id "jp13" = false := by
  refine ⟨fun s => ⟨fun h => ?_, fun h => ?_⟩, by decide, by decide, by decide⟩
  · obtain ⟨l⟩ := s
    unfold is_valid_area_id at h
    rcases l with _ | ⟨c0, _ | ⟨c1, _ | ⟨c2, _ | ⟨c3, _ | ⟨c4, rest⟩⟩⟩⟩⟩
    · simp [areaIdChars] at h
    · simp [areaIdChars] at h
    · simp [areaIdChars] at h
    · simp only [areaIdChars, Bool.and_eq_true, beq_iff_eq, decide_eq_true_eq] at h
      obtain ⟨⟨hJ, hP⟩, hlo, hhi⟩ := h
      subst hJ
      subst hP
      have hlo2 : 49 ≤ c2.toNat := by simpa [Char.le_def] using hlo
      have hhi2 : c2.toNat ≤ 57 := by simpa [Char.le_def] using hhi
      have hc : Char.ofNat c2.toNat = c2 := Char.ofNat_toNat c2
      interval_cases h2 : c2.toNat <;> rw [← hc] <;> decide
    · simp only [areaIdChars, Bool.and_eq_true, Bool.or_eq_true, beq_iff_eq,
        decide_eq_true_eq] at h
      obtain ⟨⟨hJ, hP⟩, hnum⟩ := h
      subst hJ
      subst hP
      have hc2 : Char.ofNat c2.toNat = c2 := Char.ofNat_toNat c2
      have hc3 : Char.ofNat c3.toNat = c3 := Char.ofNat_toNat c3
      rcases hnum with ⟨⟨h2lo, h2hi⟩, h3lo, h3hi⟩ | ⟨h4, h3lo, h3hi⟩
      · have h2lo2 : 49 ≤ c2.toNat := by simpa [Char.le_def] using h2lo
        have h2hi2 : c2.toNat ≤ 51 := by simpa [Char.le_def] using h2hi
        have h3lo2 : 48 ≤ c3.toNat := by simpa [Char.le_def] using h3lo
        have h3hi2 : c3.toNat ≤ 57 := by simpa [Char.le_def] using h3hi
        interval_cases hx : c2.toNat <;> interval_cases hy : c3.toNat <;>
          rw [← hc2, ← hc3] <;> decide
      · subst h4
        have h3lo2 : 48 ≤ c3.toNat := by simpa [Char.le_def] using h3lo
        have h3hi2 : c3.toNat ≤ 55 := by simpa [Char.le_def] using h3hi
        interval_cases hy : c3.toNat <;> rw [← hc3] <;> decide
    · simp [areaIdChars] at h
  · fin_cases h <;> decide

/-- C7: `RadikoPlayer::record` adds the duration in minutes to the start
time (sixty seconds per minute), formats both instants with
`format_datetime` as fourteen-digit `YYYYMMDDHHMMSS` strings (for years
up to 9999), and hands the external sink the playlist URL
`.../playlist.m3u8?station_id=<id>&l=15&ft=<start>&to=<end>` together
with the authorization header line. -/
theorem record_builds_playlist_url (p : RadikoPlayer)
    (station_id auth_token : String) (start_time duration_minutes : Nat)
    (htok : hmGet p.headers "X-Radiko-AuthToken" = some auth_token)
    (hy1 : yearOf start_time ≤ 9999)
    (hy2 : yearOf (start_time + duration_minutes * 60) ≤ 9999) :
    p.record station_id start_time duration_minutes = Except.ok
      ("https://radiko.jp/v2/api/ts/playlist.m3u8?station_id=" ++ station_id ++
        "&l=15&ft=" ++ format_datetime start_time ++ "&to=" ++
        format_datetime (start_time + duration_minutes * 60),
       "X-RADIKO-AUTHTOKEN: " ++ auth_token) ∧
    (format_datetime start_time).length = 14 ∧
    (format_datetime (start_time + duration_minutes * 60)).length = 14 := by
  refine ⟨?_, format_datetime_length _ hy1, format_datetime_length _ hy2⟩
  simp only [RadikoPlayer.record, htok]

theorem record_builds_playlist_url_w :
    ((RadikoPlayer.mk "JP13" [("X-Radiko-AuthToken", "test_token")]).record
        "TBS" 1704067200 60 = Except.ok
      ("https://radiko.jp/v2/api/ts/playlist.m3u8?station_id=" ++ "TBS" ++
        "&l=15&ft=" ++ format_datetime 1704067200 ++ "&to=" ++
        format_datetime (1704067200 + 60 * 60),
       "X-RADIKO-AUTHTOKEN: " ++ "test_token") ∧
      (format_datetime 1704067200).length = 14 ∧
      (format_datetime (1704067200 + 60 * 60)).length = 14) ∧
    format_datetime 1704067200 = "20240101000000" ∧
    format_datetime (1704067200 + 60 * 60) = "20240101010000" :=
  ⟨record_builds_playlist_url (RadikoPlayer.mk "JP13" [("X-Radiko-AuthToken", "test_token")])
      "TBS" "test_token" 1704067200 60 rfl (by decide) (by decide),
    by decide, by decide⟩

/-- C8: `record_radio` fails on a validation error exactly when the area
id is malformed, the station id is malformed, or the duration is
non-positive, and those three checks precede the directory creation —
the first filesystem access — as well as every network call and the
construction of a `RadikoPlayer`, so the failure happens before any I/O. -/
theorem record_radio_precheck_fails_fast (area_id station_id : String)
    (duration_minutes : Int) :
    (∃ msg, record_radio_precheck area_id station_id duration_minutes =
      Except.error msg) ↔
    (is_valid_area_id area_id = false ∨ is_valid_station_id station_id = false ∨
      duration_minutes ≤ 0) := by
  unfold record_radio_precheck
  by_cases ha : is_valid_area_id area_id
  · by_cases hs : is_valid_station_id station_id
    · by_cases hd : duration_minutes ≤ 0
      · simp [ha, hs, hd]
      · simp [ha, hs, hd]
    · simp [ha, hs]
  · simp [ha]

/-- C10: `RadikoPlayer::new` has an infallible signature — its result
type has no error alternative — so when the authorization handshake
fails with any error, the constructor panics (`expect`, modelled `none`)
and no error value reaches the caller. -/
theorem player_new_panics_on_auth_failure (transport : String → Response)
    (area_id e : String)
    (h : (RadikoAuthHandler.new transport area_id).1 = some (Except.error e)) :
    RadikoPlayer.new transport area_id = none := by
  unfold RadikoPlayer.new make_headers
  rw [h]
  rfl

theorem player_new_panics_on_auth_failure_w :
    RadikoPlayer.new failTransport "JP13" = none :=
  player_new_panics_on_auth_failure failTransport "JP13"
    "failed in https://radiko.jp/v2/api/auth1." (by decide)
